import Mathlib

/-!
Shallow embedding of `src/anerd.c` (anerd: Asynchronous Network Exchange
Randomness Daemon) and verification of its specification claims.

Machine integers are modelled as `Nat` with explicit `% 2^64` where the C
code uses `uint64_t` arithmetic that may wrap.  Byte buffers are `List Nat`
(each element a byte value).  The entropy device (`FILE *fp` opened on
`/dev/urandom`-like path) is modelled as a read stream plus an append log.
-/

namespace Anerd

/-- A `struct timeval` as filled in by `gettimeofday`: seconds and the
microsecond remainder (`0 ≤ tv_usec < 1000000` on real systems). -/
structure Timeval where
  sec : Nat
  usec : Nat
  deriving DecidableEq, Repr

/-- `this_usec = 1000000 * tv.tv_usec + tv.tv_usec` (src/anerd.c:53), as a
`uint64_t`.  Note the source multiplies `tv_usec` (not `tv_sec`) by 1000000. -/
def this_usec (tv : Timeval) : Nat :=
  (1000000 * tv.usec + tv.usec) % 2 ^ 64

/-- `anerd_salt` (src/anerd.c:47-61).  The C function reads the clock and, on a
zero salt, seeds `srand` with `time(NULL)` and takes `salt = rand()`; we pass
the clock reading `tv` and the `rand()` result `randVal` as explicit inputs
(`rand()` returns a nonnegative `int`, hence the `% 2^31`).  In both branches
the function then returns `salt ^ this_usec`. -/
def anerd_salt (salt : Nat) (tv : Timeval) (randVal : Nat) : Nat :=
  (if salt = 0 then randVal % 2 ^ 31 else salt) ^^^ this_usec tv

/-- The eight bytes of a `uint64_t` value as written by
`fwrite(&salt, sizeof(uint64_t), 1, fp)` (little-endian byte order). -/
def u64_bytes (s : Nat) : List Nat :=
  (List.range 8).map (fun i => s / 256 ^ i % 256)

/-- The entropy device behind `FILE *fp`: the stream of bytes future reads
will yield, and the log of bytes appended (donated) so far. -/
structure Device where
  readStream : List Nat
  written : List Nat
  deriving DecidableEq, Repr

/-- `fread(buf, n, 1, fp)` as used at src/anerd.c:127 and 186: it returns one
complete `n`-byte item (a successful draw) exactly when `n > 0` and the device
can supply `n` bytes; otherwise it returns 0 items (a failed draw). -/
def device_read (d : Device) (n : Nat) : Option (List Nat) × Device :=
  if 0 < n ∧ n ≤ d.readStream.length then
    (some (d.readStream.take n), { d with readStream := d.readStream.drop n })
  else
    (none, d)

/-- A transport address (IP plus port), as captured per datagram. -/
structure SockAddr where
  ip : Nat
  port : Nat
  deriving DecidableEq, Repr

/-- `INADDR_BROADCAST` (255.255.255.255) with the configured port, the
destination set up at src/anerd.c:173-175. -/
def broadcast_addr (port : Nat) : SockAddr :=
  ⟨0xFFFFFFFF, port⟩

/-- Observable logging events: the `syslog` receive/send reports and a
`perror` report, in program order. -/
inductive LogEvent where
  | recvLog : Nat → SockAddr → LogEvent
  | sentLog : Nat → SockAddr → LogEvent
  | errLog : String → LogEvent
  deriving DecidableEq, Repr

/-- The per-iteration mutable locals of `anerd_server` (src/anerd.c:82-140):
the rolling salt, the `size`-byte `data` buffer, and the device handle. -/
structure ServerState where
  salt : Nat
  buf : List Nat
  dev : Device
  deriving DecidableEq, Repr

/-- Result of one iteration of the server's `while (1)` loop. -/
structure ServerIterOut where
  state : ServerState
  /-- The `sendto` call made this iteration (destination and payload), if any. -/
  reply : Option (SockAddr × List Nat)
  /-- Whether the `fread(...) > 0` draw test succeeded (src/anerd.c:127). -/
  drawOk : Bool
  events : List LogEvent
  deriving DecidableEq, Repr

/-- One iteration of the server loop (src/anerd.c:114-134) on a received
datagram `dgram` from `peer`:
`bytes_read = recvfrom(sock, data, size, ...)` truncates to `size`;
`data[bytes_read] = 0` (modelled by `List.set`, which drops the write when
`bytes_read = size`, i.e. when it lands outside the buffer — that overrun is
analysed separately by `recv_written_indices`); the receive is logged; the
salt is advanced; `fwrite(data, bytes_read, 1, fp)` and
`fwrite(&salt, 8, 1, fp)` donate to the pool, then `fflush`; `fread` draws
`bytes_read` bytes and on success they are sent back to `peer`, otherwise
`perror("fread")`.  The C code never checks the `fwrite` or `sendto` return
values, so their success flags `donateOk`/`sendOk` are explicit inputs here:
`donateOk = false` leaves the append log unchanged, and `sendOk` only says
whether the emitted `sendto` call would succeed. -/
def anerd_server_iter (size : Nat) (st : ServerState) (peer : SockAddr)
    (dgram : List Nat) (tv : Timeval) (randVal : Nat)
    (donateOk : Bool) (sendOk : Bool) : ServerIterOut :=
  let bytes_read := min dgram.length size
  let buf1 := dgram.take bytes_read ++ st.buf.drop bytes_read
  let buf2 := buf1.set bytes_read 0
  let salt := anerd_salt st.salt tv randVal
  let dev1 := if donateOk then
      { st.dev with written := st.dev.written ++ buf2.take bytes_read ++ u64_bytes salt }
    else st.dev
  match device_read dev1 bytes_read with
  | (some bs, dev2) =>
    let buf3 := bs ++ buf2.drop bytes_read
    { state := ⟨salt, buf3, dev2⟩
      reply := some (peer, buf3.take bytes_read)
      drawOk := true
      events := [.recvLog bytes_read peer, .sentLog bytes_read peer] }
  | (none, dev2) =>
    { state := ⟨salt, buf2, dev2⟩
      reply := none
      drawOk := false
      events := [.recvLog bytes_read peer, .errLog "fread"] }

/-- The locals of `anerd_server` set up before its loop (src/anerd.c:82-113).
The C declaration `uint64_t salt;` (line 85) carries no initializer, so the
value read by the first `anerd_salt(salt)` call (line 122) is an indeterminate
value of the C abstract machine; it enters the model as the parameter
`indet`. -/
def anerd_server_init_salt (indet : Nat) : Nat := indet

/-- The client's rolling salt initializer `uint64_t salt = 0;`
(src/anerd.c:156). -/
def anerd_client_init_salt : Nat := 0

/-- The per-iteration mutable locals of `anerd_client` (src/anerd.c:148-211):
the rolling salt, the `size`-byte `data` buffer, the device handle, and the
single `server_addr` variable, which is both the `sendto` destination and the
`recvfrom` sender-capture argument. -/
structure ClientState where
  salt : Nat
  buf : List Nat
  dev : Device
  dest : SockAddr
  deriving DecidableEq, Repr

/-- The client state after setup (src/anerd.c:156-176): salt zero, a zeroed
`calloc` buffer of `size` bytes, and `server_addr` holding
`INADDR_BROADCAST` with the configured port. -/
def anerd_client_init (size port : Nat) (dev : Device) : ClientState :=
  ⟨anerd_client_init_salt, List.replicate size 0, dev, broadcast_addr port⟩

/-- Result of one pass through the client's broadcast step. -/
structure ClientBcastOut where
  state : ClientState
  /-- The `sendto` call made (destination and payload), if the draw succeeded. -/
  sent : Option (SockAddr × List Nat)
  events : List LogEvent
  deriving DecidableEq, Repr

/-- The client's broadcast step (src/anerd.c:185-191): draw `size` bytes with
`fread(data, size, sizeof(char), fp)`; on success log and
`sendto(sock, data, size, 0, &server_addr, ...)` — note the destination is
whatever `server_addr` currently holds — and on failure `perror("fread")`
and send nothing. -/
def anerd_client_bcast (size : Nat) (st : ClientState) : ClientBcastOut :=
  match device_read st.dev size with
  | (some bs, dev2) =>
    let buf2 := bs ++ st.buf.drop size
    { state := { st with buf := buf2, dev := dev2 }
      sent := some (st.dest, buf2.take size)
      events := [.sentLog size st.dest] }
  | (none, dev2) =>
    { state := { st with dev := dev2 }
      sent := none
      events := [.errLog "fread"] }

/-- The client's reply-processing step (src/anerd.c:194-203), run once per
datagram that arrives while `poll` reports readiness:
`bytes_read = recvfrom(sock, data, size, 0, &server_addr, ...)` truncates the
reply to `size` bytes and OVERWRITES `server_addr` with the sender's address;
`data[bytes_read] = 0`; the receive is logged; the salt is advanced; then
`fwrite(data, size, 1, fp)` — the full `size`-byte buffer, not just
`bytes_read` bytes — and `fwrite(&salt, 8, 1, fp)` donate to the pool,
followed by `fflush`. -/
def anerd_client_recv (size : Nat) (st : ClientState) (sender : SockAddr)
    (reply : List Nat) (tv : Timeval) (randVal : Nat) :
    ClientState × List LogEvent :=
  let bytes_read := min reply.length size
  let buf1 := reply.take bytes_read ++ st.buf.drop bytes_read
  let buf2 := buf1.set bytes_read 0
  let salt := anerd_salt st.salt tv randVal
  (⟨salt, buf2,
    { st.dev with written := st.dev.written ++ buf2.take size ++ u64_bytes salt },
    sender⟩,
   [.recvLog bytes_read sender])

/-- Outcome of a loop's setup sequence: the process either called `exit(1)`
or fell through into the loop body. -/
inductive SetupOutcome where
  | exited
  | proceeded
  deriving DecidableEq, Repr

/-- The server's setup sequence (src/anerd.c:90-112), with one success flag
per fallible step, returning the outcome and the `perror` reports in order:
`socket`, `fopen`, `calloc` and `bind` failures each print and `exit(1)`. -/
def anerd_server_setup (socketOk fopenOk callocOk bindOk : Bool) :
    SetupOutcome × List String :=
  if !socketOk then (.exited, ["Socket"])
  else if !fopenOk then (.exited, ["fopen"])
  else if !callocOk then (.exited, ["calloc"])
  else if !bindOk then (.exited, ["bind"])
  else (.proceeded, [])

/-- The client's setup sequence (src/anerd.c:159-182): `calloc` failure
prints and exits; a `socket` failure is only `perror`ed and execution FALLS
THROUGH (src/anerd.c:164-166 has no `exit`); `setsockopt` failure likewise
only prints; `fopen` failure prints, closes the socket and exits. -/
def anerd_client_setup (callocOk socketOk setsockoptOk fopenOk : Bool) :
    SetupOutcome × List String :=
  if !callocOk then (.exited, ["calloc"])
  else
    let errs := (if socketOk then [] else ["socket"])
      ++ (if setsockoptOk then [] else ["setsockopt (SO_BROADCAST)"])
    if !fopenOk then (.exited, errs ++ ["fopen"])
    else (.proceeded, errs)

/-- Modelled from the spec: "the current microsecond clock reading" — the
wall-clock time expressed in microseconds, `1000000 * sec + usec` (as a
`uint64_t`).  This is what claim C5 asserts `anerd_salt` XORs with; the
source instead computes `this_usec` from `tv_usec` alone. -/
def spec_microsecond_reading (tv : Timeval) : Nat :=
  (1000000 * tv.sec + tv.usec) % 2 ^ 64

/-- The `data` buffer indices written while handling one inbound datagram of
`dgramLen` bytes into the `size`-byte `calloc` buffer, in both loops:
`recvfrom(sock, data, size, ...)` fills indices `0 .. bytes_read - 1` with
`bytes_read = min dgramLen size` (src/anerd.c:116 and 195), and the following
`data[bytes_read] = 0` (src/anerd.c:117 and 196) writes index `bytes_read`. -/
def recv_written_indices (size dgramLen : Nat) : List Nat :=
  List.range (min dgramLen size) ++ [min dgramLen size]

/-! ### Helper lemmas -/

theorem take_set_self {α : Type _} (l : List α) (i : Nat) (a : α) :
    (l.set i a).take i = l.take i := by
  induction l generalizing i with
  | nil => rfl
  | cons x xs ih =>
    cases i with
    | zero => rfl
    | succ j =>
      show x :: (xs.set j a).take j = x :: xs.take j
      rw [ih]

theorem u64_bytes_length (s : Nat) : (u64_bytes s).length = 8 := by
  simp [u64_bytes]

theorem device_read_some (d : Device) (n : Nat) (bs : List Nat) (d2 : Device)
    (h : device_read d n = (some bs, d2)) :
    bs.length = n ∧ d2.written = d.written := by
  unfold device_read at h
  split at h
  · rename_i hc
    injection h with h1 h2
    injection h1 with h1
    subst h1 h2
    exact ⟨by rw [List.length_take]; exact Nat.min_eq_left hc.2, rfl⟩
  · simp at h

theorem device_read_none (d : Device) (n : Nat) (d2 : Device)
    (h : device_read d n = (none, d2)) : d2 = d := by
  unfold device_read at h
  split at h
  · simp at h
  · injection h with h1 h2
    exact h2.symm

/-! ### Claim theorems -/

/-- C5 (code bug): `anerd_salt` with a non-zero previous value does NOT
return `previous XOR (microsecond clock reading)`.  The source computes
`this_usec = 1000000 * tv.tv_usec + tv.tv_usec` (src/anerd.c:53) — an obvious
typo for `1000000 * tv.tv_sec + tv.tv_usec` — so at clock (sec = 1, usec = 0)
the reading in microseconds is 1000000, yet `this_usec = 0` and the call
returns `previous` unchanged, where the claimed value is
`1 XOR 1000000 = 1000001`. -/
theorem anerd_salt_not_xor_microsecond_reading :
    anerd_salt 1 ⟨1, 0⟩ 0 = 1 ∧
    1 ^^^ spec_microsecond_reading ⟨1, 0⟩ = 1000001 ∧
    anerd_salt 1 ⟨1, 0⟩ 0 ≠ 1 ^^^ spec_microsecond_reading ⟨1, 0⟩ ∧
    this_usec ⟨1, 0⟩ = 0 := by
  decide

/-- C6 (code bug): because `this_usec` depends only on the `tv_usec` field
(src/anerd.c:53), two calls with the same non-zero salt 5 at measurably
different clock times — (sec = 100, usec = 500) and (sec = 101, usec = 500),
a full second apart — return the SAME output, contradicting the claim that
consecutive non-zero-seeded calls at different times never repeat. -/
theorem anerd_salt_repeats_at_different_times :
    (⟨100, 500⟩ : Timeval) ≠ ⟨101, 500⟩ ∧
    (5 : Nat) ≠ 0 ∧
    anerd_salt 5 ⟨100, 500⟩ 3 = anerd_salt 5 ⟨101, 500⟩ 3 := by
  decide

/-- C7 (code bug): the client's rolling salt does start at the zero sentinel
(`uint64_t salt = 0;`, src/anerd.c:156), but the server's `uint64_t salt;`
(src/anerd.c:85) has NO initializer, so its initial value is indeterminate.
With indeterminate value 5 the first `anerd_salt` call takes the non-zero
branch (returning 5 at a zero-`usec` clock) instead of the claimed re-seeding
branch (which would return the `rand()` value 9). -/
theorem server_salt_uninitialized :
    anerd_client_init_salt = 0 ∧
    (anerd_client_init 4 26373 ⟨[], []⟩).salt = 0 ∧
    anerd_server_init_salt 5 ≠ 0 ∧
    anerd_salt (anerd_server_init_salt 5) ⟨7, 0⟩ 9 = 5 ∧
    anerd_salt 0 ⟨7, 0⟩ 9 = 9 := by
  decide

/-- C9 (code bug): in the server every setup failure exits, and in the client
`calloc` and `fopen` failures exit, but a client `socket()` failure is only
`perror`ed — src/anerd.c:164-166 has no `exit` — and the client proceeds into
its loop with an invalid descriptor, contradicting "terminate immediately". -/
theorem client_socket_failure_not_fatal :
    anerd_client_setup true false true true = (.proceeded, ["socket"]) ∧
    anerd_server_setup false true true true = (.exited, ["Socket"]) ∧
    anerd_server_setup true false true true = (.exited, ["fopen"]) ∧
    anerd_server_setup true true false true = (.exited, ["calloc"]) ∧
    anerd_server_setup true true true false = (.exited, ["bind"]) ∧
    anerd_client_setup false true true true = (.exited, ["calloc"]) ∧
    anerd_client_setup true true true false = (.exited, ["fopen"]) := by
  decide

/-- C2 (code bug): with block size 64 and a 64-byte (or larger, truncated)
datagram, `recvfrom` itself is bounded by the configured size (every index it
fills is below 64), but the following `data[bytes_read] = 0`
(src/anerd.c:117 and 196) writes index 64 — one byte past the 64-byte
`calloc` buffer, whose valid indices are 0..63. -/
theorem recv_null_write_out_of_bounds :
    (∀ i ∈ recv_written_indices 64 64, i ≤ 64) ∧
    64 ∈ recv_written_indices 64 64 ∧
    ¬ (64 < 64) := by
  decide

/-- C3 (code bug): the client's first broadcast does go to
255.255.255.255:26373, but `recvfrom(sock, data, size, 0, &server_addr, ...)`
(src/anerd.c:195) overwrites `server_addr` with the replying peer's address,
so the round after a reply from 203.0.113.5:40000 sends the freshly drawn
block to that peer instead of the broadcast address. -/
theorem client_broadcast_dest_clobbered :
    (anerd_client_bcast 4 (anerd_client_init 4 26373 ⟨[1, 2, 3, 4, 5, 6, 7, 8], []⟩)).sent
      = some (broadcast_addr 26373, [1, 2, 3, 4]) ∧
    (anerd_client_bcast 4
        (anerd_client_recv 4
          (anerd_client_bcast 4 (anerd_client_init 4 26373 ⟨[1, 2, 3, 4, 5, 6, 7, 8], []⟩)).state
          ⟨0xCB007105, 40000⟩ [10, 20, 30, 40] ⟨0, 0⟩ 5).1).sent
      = some (⟨0xCB007105, 40000⟩, [5, 6, 7, 8]) ∧
    (⟨0xCB007105, 40000⟩ : SockAddr) ≠ broadcast_addr 26373 := by
  decide

/-- C4 counterexample: the client receives a 2-byte reply `[1, 2]` into a
4-byte buffer previously holding `[9, 9, 9, 9]`; `fwrite(data, size, 1, fp)`
(src/anerd.c:201) donates the full 4-byte buffer `[1, 2, 0, 9]` (reply bytes,
the written null, and a stale byte) plus the 8 salt bytes — not just the 2
received bytes plus salt as the claim states. -/
theorem client_donate_includes_stale_bytes :
    (anerd_client_recv 4 ⟨0, [9, 9, 9, 9], ⟨[], []⟩, broadcast_addr 26373⟩
        ⟨0xCB007105, 40000⟩ [1, 2] ⟨0, 0⟩ 7).1.dev.written
      = [1, 2, 0, 9] ++ u64_bytes 7 ∧
    ([1, 2, 0, 9] ++ u64_bytes 7 : List Nat) ≠ [1, 2] ++ u64_bytes 7 := by
  decide

/-- C10 counterexample: a server iteration whose donate `fwrite` fails
(`donateOk = false`) produces NO failure report and is not abandoned — the
events are the ordinary receive/send logs and the reply is still sent —
contradicting "every transient failure is reported and the iteration
abandoned".  The source never checks the `fwrite` return value
(src/anerd.c:123-124). -/
theorem server_donate_failure_unreported :
    (anerd_server_iter 4 ⟨0, [0, 0, 0, 0], ⟨[9, 8, 7], []⟩⟩ ⟨1, 2⟩ [1, 2, 3]
        ⟨0, 0⟩ 5 false true).events
      = [.recvLog 3 ⟨1, 2⟩, .sentLog 3 ⟨1, 2⟩] ∧
    (anerd_server_iter 4 ⟨0, [0, 0, 0, 0], ⟨[9, 8, 7], []⟩⟩ ⟨1, 2⟩ [1, 2, 3]
        ⟨0, 0⟩ 5 false true).reply
      = some (⟨1, 2⟩, [9, 8, 7]) := by
  decide

/-- C1: for every received datagram of `n > 0` bytes (after the `recvfrom`
truncation, so `n ≤ size`), when the server's draw from the pool succeeds the
iteration sends exactly `n` bytes back to the originating peer on the same
socket, and when the draw fails it sends nothing at all. -/
theorem server_reply_exact_or_absent (size : Nat) (st : ServerState)
    (peer : SockAddr) (dgram : List Nat) (tv : Timeval) (randVal : Nat)
    (donateOk sendOk : Bool)
    (hpos : 0 < dgram.length) (hle : dgram.length ≤ size) :
    ((anerd_server_iter size st peer dgram tv randVal donateOk sendOk).drawOk = true →
      ∃ bs, (anerd_server_iter size st peer dgram tv randVal donateOk sendOk).reply
          = some (peer, bs) ∧ bs.length = dgram.length) ∧
    ((anerd_server_iter size st peer dgram tv randVal donateOk sendOk).drawOk = false →
      (anerd_server_iter size st peer dgram tv randVal donateOk sendOk).reply = none) := by
  have hmin : min dgram.length size = dgram.length := Nat.min_eq_left hle
  by_cases hst : dgram.length ≤ st.dev.readStream.length <;>
    cases donateOk <;>
    simp [anerd_server_iter, device_read, hpos, hst, hmin]

/-- C1 witness at a concrete input: size 4, datagram `[1, 2, 3]`, a device
able to supply 3 bytes. -/
theorem server_reply_exact_or_absent_witness :
    (0 : Nat) < ([1, 2, 3] : List Nat).length ∧
    ([1, 2, 3] : List Nat).length ≤ 4 ∧
    ((anerd_server_iter 4 ⟨0, [0, 0, 0, 0], ⟨[9, 8, 7], []⟩⟩ ⟨1, 2⟩ [1, 2, 3]
        ⟨0, 0⟩ 5 true true).drawOk = true →
      ∃ bs, (anerd_server_iter 4 ⟨0, [0, 0, 0, 0], ⟨[9, 8, 7], []⟩⟩ ⟨1, 2⟩ [1, 2, 3]
          ⟨0, 0⟩ 5 true true).reply = some (⟨1, 2⟩, bs) ∧
        bs.length = ([1, 2, 3] : List Nat).length) :=
  ⟨by decide, by decide,
    (server_reply_exact_or_absent 4 ⟨0, [0, 0, 0, 0], ⟨[9, 8, 7], []⟩⟩ ⟨1, 2⟩
      [1, 2, 3] ⟨0, 0⟩ 5 true true (by decide) (by decide)).1⟩

/-- C8: a (successful) server donate appends exactly the received bytes
followed by the 8 salt bytes to the pool, before the draw; the appended run
has length `bytes_read + 8` — in particular 72 bytes for a 64-byte datagram,
as the final conjunct checks on a concrete 64-byte exchange. -/
theorem server_donate_appends (size : Nat) (st : ServerState) (peer : SockAddr)
    (dgram : List Nat) (tv : Timeval) (randVal : Nat) (sendOk : Bool) :
    (anerd_server_iter size st peer dgram tv randVal true sendOk).state.dev.written
      = st.dev.written ++ dgram.take (min dgram.length size)
        ++ u64_bytes (anerd_salt st.salt tv randVal) ∧
    (dgram.take (min dgram.length size)
        ++ u64_bytes (anerd_salt st.salt tv randVal)).length
      = min dgram.length size + 8 ∧
    (anerd_server_iter 64 ⟨0, List.replicate 64 0, ⟨List.replicate 64 9, []⟩⟩
        ⟨0xCB007105, 40000⟩ (List.replicate 64 1) ⟨0, 0⟩ 5 true
        true).state.dev.written.length = 72 := by
  have hminle : min dgram.length size ≤ dgram.length := Nat.min_le_left _ _
  have htake :
      (((dgram.take (min dgram.length size)
          ++ st.buf.drop (min dgram.length size)).set (min dgram.length size) 0).take
        (min dgram.length size)
      = dgram.take (min dgram.length size)) := by
    rw [take_set_self, List.take_append_of_le_length
      (by rw [List.length_take]; exact le_of_eq (Nat.min_eq_left hminle).symm)]
    rw [List.take_of_length_le
      (by rw [List.length_take]; exact le_of_eq (Nat.min_eq_left hminle))]
  refine ⟨?_, ?_, by decide⟩
  · by_cases hc : (0 < dgram.length ∧ 0 < size) ∧
        (dgram.length ≤ st.dev.readStream.length ∨ size ≤ st.dev.readStream.length)
    · simp [anerd_server_iter, device_read, hc, htake]
    · simp [anerd_server_iter, device_read, hc, htake]
  · rw [List.length_append, List.length_take, u64_bytes_length,
      Nat.min_eq_left hminle]

/-- C4 amended: on each reply of `n = min (reply length) size` received
bytes, the client donates the full `size`-byte buffer — whose first `n` bytes
are the received reply bytes, followed by the null terminator and stale
remainder — and then the 8 salt bytes, a total of `size + 8` appended bytes
(not `n + 8` as originally claimed). -/
theorem client_donate_full_buffer_and_salt (size : Nat) (st : ClientState)
    (sender : SockAddr) (reply : List Nat) (tv : Timeval) (randVal : Nat)
    (hbuf : st.buf.length = size) :
    (anerd_client_recv size st sender reply tv randVal).1.dev.written
      = st.dev.written
        ++ ((reply.take (min reply.length size)
              ++ st.buf.drop (min reply.length size)).set (min reply.length size) 0)
        ++ u64_bytes (anerd_salt st.salt tv randVal) ∧
    (((reply.take (min reply.length size)
          ++ st.buf.drop (min reply.length size)).set (min reply.length size) 0)
        ++ u64_bytes (anerd_salt st.salt tv randVal)).length = size + 8 ∧
    ((reply.take (min reply.length size)
          ++ st.buf.drop (min reply.length size)).set (min reply.length size) 0).take
        (min reply.length size)
      = reply.take (min reply.length size) := by
  have hminr : min reply.length size ≤ reply.length := Nat.min_le_left _ _
  have hmins : min reply.length size ≤ size := Nat.min_le_right _ _
  have hlen :
      ((reply.take (min reply.length size)
          ++ st.buf.drop (min reply.length size)).set (min reply.length size) 0).length
        = size := by
    rw [List.length_set, List.length_append, List.length_take, List.length_drop,
      Nat.min_eq_left hminr, hbuf]
    omega
  refine ⟨?_, ?_, ?_⟩
  · show _ ++ List.take size _ ++ _ = _
    rw [List.take_of_length_le (le_of_eq hlen)]
  · rw [List.length_append, hlen, u64_bytes_length]
  · rw [take_set_self, List.take_append_of_le_length
      (by rw [List.length_take]; exact le_of_eq (Nat.min_eq_left hminr).symm)]
    rw [List.take_of_length_le
      (by rw [List.length_take]; exact le_of_eq (Nat.min_eq_left hminr))]

/-- C4 amended witness at a concrete input: size 2, buffer `[9, 9]`, a
1-byte reply `[1]`; the donation appends `[1, 0]` plus the 8 salt bytes. -/
theorem client_donate_full_buffer_and_salt_witness :
    ([9, 9] : List Nat).length = 2 ∧
    (anerd_client_recv 2 ⟨0, [9, 9], ⟨[], []⟩, broadcast_addr 26373⟩ ⟨1, 1⟩
        [1] ⟨0, 0⟩ 7).1.dev.written = [1, 0] ++ u64_bytes 7 :=
  ⟨by decide,
    ((client_donate_full_buffer_and_salt 2 ⟨0, [9, 9], ⟨[], []⟩, broadcast_addr 26373⟩
      ⟨1, 1⟩ [1] ⟨0, 0⟩ 7 (by decide)).1).trans (by decide)⟩

/-- C10 amended: a failed draw (`fread`) is reported via `perror` and the
send is skipped, with the loop continuing — in the server the iteration emits
the error log and no reply, and in the client the broadcast step that sends
nothing emits exactly the error log.  Donate (`fwrite`) and send (`sendto`)
results, however, are never checked by the source, so their failures are
unreported and leave the iteration's reply and logs unchanged. -/
theorem transient_failure_handling (size : Nat) (st : ServerState)
    (peer : SockAddr) (dgram : List Nat) (tv : Timeval) (randVal : Nat)
    (donateOk sendOk : Bool) (cst : ClientState) :
    ((anerd_server_iter size st peer dgram tv randVal donateOk sendOk).drawOk = false →
      (anerd_server_iter size st peer dgram tv randVal donateOk sendOk).reply = none ∧
      LogEvent.errLog "fread"
        ∈ (anerd_server_iter size st peer dgram tv randVal donateOk sendOk).events) ∧
    ((anerd_server_iter size st peer dgram tv randVal donateOk sendOk).events
      = (anerd_server_iter size st peer dgram tv randVal true true).events) ∧
    ((anerd_server_iter size st peer dgram tv randVal donateOk sendOk).reply
      = (anerd_server_iter size st peer dgram tv randVal true true).reply) ∧
    ((anerd_client_bcast size cst).sent = none →
      (anerd_client_bcast size cst).events = [.errLog "fread"]) := by
  refine ⟨?_, ?_, ?_, ?_⟩
  · intro h
    by_cases hc : (0 < dgram.length ∧ 0 < size) ∧
        (dgram.length ≤ st.dev.readStream.length ∨ size ≤ st.dev.readStream.length)
    · exfalso
      cases donateOk <;>
        simp [anerd_server_iter, device_read, hc] at h
    · cases donateOk <;>
        simp [anerd_server_iter, device_read, hc]
  · cases donateOk with
    | true => rfl
    | false =>
      by_cases hc : (0 < dgram.length ∧ 0 < size) ∧
          (dgram.length ≤ st.dev.readStream.length ∨ size ≤ st.dev.readStream.length)
      · simp [anerd_server_iter, device_read, hc]
      · simp [anerd_server_iter, device_read, hc]
  · cases donateOk with
    | true => rfl
    | false =>
      by_cases hc : (0 < dgram.length ∧ 0 < size) ∧
          (dgram.length ≤ st.dev.readStream.length ∨ size ≤ st.dev.readStream.length)
      · simp [anerd_server_iter, device_read, hc]
      · simp [anerd_server_iter, device_read, hc]
  · intro h
    by_cases hc : 0 < size ∧ size ≤ cst.dev.readStream.length
    · exfalso
      simp [anerd_client_bcast, device_read, hc] at h
    · simp [anerd_client_bcast, device_read, hc]

/-- C10 amended witness at concrete inputs: a server iteration on a 3-byte
datagram with only 1 byte of pool left (failed draw, `donateOk = false`)
reports the `fread` failure and sends no reply, and a client broadcast step
over an exhausted pool emits exactly the error log. -/
theorem transient_failure_handling_witness :
    (anerd_server_iter 4 ⟨0, [0, 0, 0, 0], ⟨[9], []⟩⟩ ⟨1, 2⟩ [1, 2, 3]
        ⟨0, 0⟩ 5 false true).reply = none ∧
    LogEvent.errLog "fread"
      ∈ (anerd_server_iter 4 ⟨0, [0, 0, 0, 0], ⟨[9], []⟩⟩ ⟨1, 2⟩ [1, 2, 3]
          ⟨0, 0⟩ 5 false true).events ∧
    (anerd_client_bcast 4 ⟨0, [0, 0, 0, 0], ⟨[], []⟩, broadcast_addr 26373⟩).events
      = [.errLog "fread"] := by
  have h := transient_failure_handling 4 ⟨0, [0, 0, 0, 0], ⟨[9], []⟩⟩ ⟨1, 2⟩
    [1, 2, 3] ⟨0, 0⟩ 5 false true ⟨0, [0, 0, 0, 0], ⟨[], []⟩, broadcast_addr 26373⟩
  exact ⟨(h.1 (by decide)).1, (h.1 (by decide)).2, h.2.2.2 (by decide)⟩

end Anerd
